import Mathlib

/-!
Verification of the output-parsing-and-ingestion pipeline of the slurmqueen
repository (files `experiment.py` and `sql_cached_experiment.py`).

The development shallowly embeds the two ingestion entry points:
`ExperimentInstance.create_database` (flat mode, `experiment.py`) and
`SQLCachedExperiment._save_data` (tabular mode, `sql_cached_experiment.py`),
together with the `SQLiteConnection` scoped-connection helper.

Python values recovered by `ast.literal_eval` are modelled by `PyVal`, Python
exceptions by `PyErr`, and Python dictionaries by insertion-ordered
association lists over string keys.  The literal parser `pyLiteralEval`
implements the fragment of Python literal syntax exercised by the pipeline:
integers (with unary minus), single- and double-quoted strings without escape
sequences, `True`/`False`/`None`, tuples, lists, and dictionaries with
string-literal keys.  Floating-point literals, escape sequences, sets and
non-string dictionary keys are outside the modelled fragment.  As in CPython,
the parser distinguishes tokenization failures (`SyntaxError`) from
evaluation failures on syntactically valid input (`ValueError`, e.g. a bare
identifier such as `inf`).
-/

/-- Python exception classes raised by the embedded code.  The ingestion
loops catch exactly `SyntaxError` and `ValueError`; other classes
(modelled by `typeError`) propagate uncaught. -/
inductive PyErr where
  | syntaxError : String → PyErr
  | valueError : String → PyErr
  | typeError : String → PyErr
  | fileNotFoundError : String → PyErr
deriving DecidableEq

/-- Python values produced by `ast.literal_eval` in the modelled fragment.
Dictionaries are insertion-ordered association lists with string keys. -/
inductive PyVal where
  | int : Int → PyVal
  | bool : Bool → PyVal
  | none : PyVal
  | str : String → PyVal
  | tuple : List PyVal → PyVal
  | list : List PyVal → PyVal
  | dict : List (String × PyVal) → PyVal

/-- A Python dictionary with string keys: an insertion-ordered association
list.  This is the shape of every header and data record in the pipeline. -/
abbrev Datum := List (String × PyVal)

/-- Python `d[k] = v` on an insertion-ordered dictionary: an existing key is
updated in place, a new key is appended at the end. -/
def dictSet (d : Datum) (k : String) (v : PyVal) : Datum :=
  if d.any (fun p => p.1 == k) then d.map (fun p => if p.1 == k then (k, v) else p)
  else d ++ [(k, v)]

/-- Python `d.pop(k, None)`: remove every entry under key `k` (an
association-list entry for a given key is unique, so this removes at most
one entry on dictionaries built through `dictSet`). -/
def dictPop (d : Datum) (k : String) : Datum :=
  d.filter (fun p => p.1 ≠ k)

/-- Python `d[k]` lookup, as an `Option`. -/
def dictGet (d : Datum) (k : String) : Option PyVal :=
  (d.find? (fun p => p.1 == k)).map (fun p => p.2)

/-- Whitespace characters stripped by Python `str.strip` and skipped between
tokens: space, tab, newline, carriage return, vertical tab, form feed. -/
def isPyWs (c : Char) : Bool :=
  c == ' ' || c == Char.ofNat 9 || c == Char.ofNat 10 || c == Char.ofNat 13 ||
  c == Char.ofNat 11 || c == Char.ofNat 12

/-- Python `str.strip()`: drop leading and trailing whitespace. -/
def pyStrip (s : String) : String :=
  String.mk (((s.data.dropWhile isPyWs).reverse.dropWhile isPyWs).reverse)

/-- Python `str.split(sep)` for a one-character separator, on character
lists: split at every occurrence of `sep`. -/
def splitOnChar (sep : Char) : List Char → List (List Char)
  | [] => [[]]
  | c :: cs =>
    if c == sep then [] :: splitOnChar sep cs
    else (c :: (splitOnChar sep cs).headD []) :: (splitOnChar sep cs).tail

/-- Python `str.split(sep)` for a one-character separator. -/
def pySplit (sep : Char) (s : String) : List String :=
  (splitOnChar sep s.data).map String.mk

/-- Remove every occurrence of the pattern `pat` from `l`, scanning left to
right and skipping matched regions: Python `str.replace(pat, empty)`.
The fuel argument is instantiated with the length of `l`. -/
def removeOcc (pat : List Char) : Nat → List Char → List Char
  | _, [] => []
  | 0, l => l
  | fuel + 1, c :: cs =>
    if pat.isPrefixOf (c :: cs) then removeOcc pat fuel (List.drop (pat.length - 1) cs)
    else c :: removeOcc pat fuel cs

/-- Python `s.replace(pat, "")`: delete every occurrence of `pat` in `s`. -/
def pyReplaceEmpty (s pat : String) : String :=
  String.mk (removeOcc pat.data s.data.length s.data)

/-- Python `s.endswith(suffix)`. -/
def strEndsWith (s suffix : String) : Bool :=
  suffix.data.reverse.isPrefixOf s.data.reverse

/-- Python `filename[filename.rfind(slash) + 1:]`: the part of the path
after the last slash (the whole string when no slash occurs, matching
`rfind` returning -1). -/
def afterLastSlash (s : String) : String :=
  String.mk ((s.data.reverse.takeWhile (fun c => c ≠ '/')).reverse)

/-- Value of a list of decimal digit characters. -/
def digitsToNat (ds : List Char) : Nat :=
  ds.foldl (fun n c => 10 * n + (c.toNat - 48)) 0

/-- Python `int(s)`: strip whitespace, accept an optional sign followed by
one or more decimal digits, otherwise raise `ValueError`.  (Underscore
digit separators are outside the modelled fragment.) -/
def pyInt (s : String) : Except PyErr Int :=
  let t := (pyStrip s).data
  let signDigits : Bool × List Char :=
    match t with
    | '-' :: rest => (true, rest)
    | '+' :: rest => (false, rest)
    | l => (false, l)
  if !signDigits.2.isEmpty && signDigits.2.all (fun c => c.isDigit) then
    .ok (if signDigits.1 then -(digitsToNat signDigits.2 : Int) else (digitsToNat signDigits.2 : Int))
  else
    .error (.valueError ("invalid literal for int() with base 10: " ++ s))

/-- Skip whitespace between tokens. -/
def skipWs : List Char → List Char
  | [] => []
  | c :: cs => if isPyWs c then skipWs cs else c :: cs

/-- First pending evaluation error, if any. -/
def firstPend : Option PyErr → Option PyErr → Option PyErr
  | some e, _ => some e
  | Option.none, b => b

/-- Read the body of a quoted string literal up to the closing quote `q`.
A newline or the end of input before the closing quote is the CPython
tokenizer error for an unterminated string literal. -/
def readStrLit (q : Char) : List Char → Except PyErr (List Char × List Char)
  | [] => .error (.syntaxError "EOL while scanning string literal")
  | c :: cs =>
    if c == q then .ok ([], cs)
    else if c == Char.ofNat 10 then .error (.syntaxError "EOL while scanning string literal")
    else
      match readStrLit q cs with
      | .ok (sChars, r) => .ok (c :: sChars, r)
      | .error e => .error e

mutual

/-- Parse one Python expression of the modelled literal fragment.  Returns
the parsed value, a pending evaluation-stage error (the `ValueError` that
`ast.literal_eval` raises after successful tokenization, e.g. for a bare
identifier), and the unconsumed input.  Fuel makes the recursion
structural; it is instantiated generously by `pyLiteralEval`. -/
def parseExpr : Nat → List Char → Except PyErr ((PyVal × Option PyErr) × List Char)
  | 0, _ => .error (.syntaxError "invalid syntax")
  | fuel + 1, cs =>
    match skipWs cs with
    | [] => .error (.syntaxError "unexpected EOF while parsing")
    | c :: rest =>
      if c == '-' then
        match parseExpr fuel rest with
        | .error e => .error e
        | .ok ((v, pend), r) =>
          match v with
          | .int n => .ok ((.int (-n), pend), r)
          | _ => .ok ((.none, firstPend pend (some (.valueError "malformed node or string"))), r)
      else if c.isDigit then
        .ok ((.int (digitsToNat ((c :: rest).takeWhile (fun d => d.isDigit))), none),
             (c :: rest).dropWhile (fun d => d.isDigit))
      else if c == '"' || c == Char.ofNat 39 then
        match readStrLit c rest with
        | .error e => .error e
        | .ok (sChars, r) => .ok ((.str (String.mk sChars), none), r)
      else if c.isAlpha || c == '_' then
        let ids := (c :: rest).takeWhile (fun d => d.isAlphanum || d == '_')
        let r := (c :: rest).dropWhile (fun d => d.isAlphanum || d == '_')
        if String.mk ids == "True" then .ok ((.bool true, none), r)
        else if String.mk ids == "False" then .ok ((.bool false, none), r)
        else if String.mk ids == "None" then .ok ((.none, none), r)
        else .ok ((.none, some (.valueError "malformed node or string")), r)
      else if c == '(' then
        match skipWs rest with
        | ')' :: r2 => .ok ((.tuple [], none), r2)
        | _ =>
          match parseItems fuel ')' rest with
          | .error e => .error e
          | .ok ((items, sawComma), r2) =>
            match items, sawComma with
            | [single], false => .ok (single, r2)
            | _, _ =>
              .ok ((.tuple (items.map (fun it => it.1)),
                    items.foldl (fun acc it => firstPend acc it.2) none), r2)
      else if c == '[' then
        match skipWs rest with
        | ']' :: r2 => .ok ((.list [], none), r2)
        | _ =>
          match parseItems fuel ']' rest with
          | .error e => .error e
          | .ok ((items, _), r2) =>
            .ok ((.list (items.map (fun it => it.1)),
                  items.foldl (fun acc it => firstPend acc it.2) none), r2)
      else if c == '{' then
        match skipWs rest with
        | '}' :: r2 => .ok ((.dict [], none), r2)
        | _ =>
          match parseDictItems fuel rest with
          | .error e => .error e
          | .ok ((entries, pend), r2) =>
            .ok ((.dict (entries.foldl (fun acc kv => dictSet acc kv.1 kv.2) []), pend), r2)
      else .error (.syntaxError "invalid syntax")

/-- Parse a nonempty comma-separated sequence of expressions followed by the
closing character `close`.  Returns the items (each with its pending
evaluation error), whether a comma occurred (distinguishing the
one-element tuple `(x,)` from the parenthesized expression `(x)`), and the
unconsumed input after `close`. -/
def parseItems : Nat → Char → List Char → Except PyErr ((List (PyVal × Option PyErr) × Bool) × List Char)
  | 0, _, _ => .error (.syntaxError "invalid syntax")
  | fuel + 1, close, cs =>
    match parseExpr fuel cs with
    | .error e => .error e
    | .ok (item, r) =>
      match skipWs r with
      | [] => .error (.syntaxError "unexpected EOF while parsing")
      | c2 :: r2 =>
        if c2 == close then .ok (([item], false), r2)
        else if c2 == ',' then
          match skipWs r2 with
          | [] => .error (.syntaxError "unexpected EOF while parsing")
          | c3 :: r3 =>
            if c3 == close then .ok (([item], true), r3)
            else
              match parseItems fuel close r2 with
              | .error e => .error e
              | .ok ((items, _), r4) => .ok ((item :: items, true), r4)
        else .error (.syntaxError "invalid syntax")

/-- Parse a nonempty comma-separated sequence of `key : value` pairs
followed by a closing brace.  Keys outside the modelled fragment
(non-string-literal keys) yield a pending evaluation error. -/
def parseDictItems : Nat → List Char → Except PyErr ((List (String × PyVal) × Option PyErr) × List Char)
  | 0, _ => .error (.syntaxError "invalid syntax")
  | fuel + 1, cs =>
    match parseExpr fuel cs with
    | .error e => .error e
    | .ok ((kv, kpend), r) =>
      let kres : String × Option PyErr :=
        match kv with
        | .str s => (s, kpend)
        | _ => ("", firstPend kpend (some (.valueError "unsupported dict key in modelled fragment")))
      match skipWs r with
      | ':' :: r2 =>
        match parseExpr fuel r2 with
        | .error e => .error e
        | .ok ((vv, vpend), r3) =>
          match skipWs r3 with
          | [] => .error (.syntaxError "unexpected EOF while parsing")
          | c4 :: r4 =>
            if c4 == '}' then .ok (([(kres.1, vv)], firstPend kres.2 vpend), r4)
            else if c4 == ',' then
              match skipWs r4 with
              | '}' :: r5 => .ok (([(kres.1, vv)], firstPend kres.2 vpend), r5)
              | _ =>
                match parseDictItems fuel r4 with
                | .error e => .error e
                | .ok ((entries, pend2), r5) =>
                  .ok (((kres.1, vv) :: entries, firstPend (firstPend kres.2 vpend) pend2), r5)
            else .error (.syntaxError "invalid syntax")
      | _ => .error (.syntaxError "invalid syntax")

end

/-- Python `ast.literal_eval(s)` on the modelled fragment.  Tokenization and
grammar failures raise `SyntaxError`; syntactically valid input that is not
a literal (for example the bare identifier `inf`) raises `ValueError`, as
in CPython where parsing and evaluation are separate phases. -/
def pyLiteralEval (s : String) : Except PyErr PyVal :=
  match parseExpr (2 * s.length + 8) s.data with
  | .error e => .error e
  | .ok ((v, pend), rest) =>
    if (skipWs rest).isEmpty then
      match pend with
      | some e => .error e
      | Option.none => .ok v
    else .error (.syntaxError "invalid syntax")

/-- File-id recovery (line 136 of `experiment.py`, line 56 of
`sql_cached_experiment.py`): the filename after the last slash with every
occurrence of ".out" deleted, to be passed to `int`. -/
def fileStem (filename : String) : String :=
  pyReplaceEmpty (afterLastSlash filename) ".out"

/-- Untrimmed key text of a flat body line: `line.split(":")[0]`. -/
def flatKeyTextRaw (line : String) : String :=
  (pySplit ':' line).getD 0 ""

/-- Untrimmed value text of a flat body line: `line.split(":")[1]`, the
segment strictly between the first and the second colon (the split is on
every colon and only index 1 is read, so text after a second colon is
discarded). -/
def flatValueTextRaw (line : String) : String :=
  (pySplit ':' line).getD 1 ""

/-- CPython `is` identity test between a string freshly produced by
`str.split` and an interned string literal ("inf" or "nan"): the split
result is a newly allocated, non-interned object, so the identity test is
always false whatever the contents.  (Additionally, the compared segment
is untrimmed here, so on a line such as "loss: inf" even a value-equality
test would fail because of the leading space and trailing newline.) -/
def pyIsLiteralStr (_s _lit : String) : Bool := false

/-- Value text after the inf/nan identity check of lines 147-148 of
`experiment.py` (never actually rewritten, since the identity test is
always false). -/
def flatValueText (line : String) : String :=
  if pyIsLiteralStr (flatValueTextRaw line) "inf" || pyIsLiteralStr (flatValueTextRaw line) "nan"
  then "-1" else flatValueTextRaw line

/-- Processing of one flat-mode body line (lines 141-153 of
`experiment.py`): skip lines of length 1 and lines without a colon;
otherwise parse the trimmed value text, falling back to the trimmed raw
string on `ValueError`; a `SyntaxError` propagates. -/
def flatLineStep (datum : Datum) (line : String) : Except PyErr Datum :=
  if line.data.length == 1 then .ok datum
  else if !(line.data.contains ':') then .ok datum
  else
    match pyLiteralEval (pyStrip (flatValueText line)) with
    | .ok v => .ok (dictSet datum (pyStrip (flatKeyTextRaw line)) v)
    | .error (.valueError _) =>
      .ok (dictSet datum (pyStrip (flatKeyTextRaw line)) (.str (pyStrip (flatValueText line))))
    | .error e => .error e

/-- Flat-mode body loop over `lines[1:]`: fold `flatLineStep` left to
right, aborting at the first propagated error. -/
def flatBody (datum : Datum) : List String → Except PyErr Datum
  | [] => .ok datum
  | line :: rest =>
    match flatLineStep datum line with
    | .error e => .error e
    | .ok d2 => flatBody d2 rest

/-- Use a parsed line-1 value as a mapping.  A non-dictionary value makes
the subsequent `pop` or item assignment raise an error class the
ingestion loops do not catch; modelled as `typeError`. -/
def asDict : PyVal → Except PyErr Datum
  | .dict d => .ok d
  | _ => .error (.typeError "line 1 does not evaluate to a dict")

/-- Flat-mode header record (lines 137-139 of `experiment.py`): remove the
empty-string key from the evalled line-1 mapping, then set `file`. -/
def flatHeaderOf (fileId : Int) (h : Datum) : Datum :=
  dictSet (dictPop h "") "file" (.int fileId)

/-- The two except clauses of each per-file try block: `SyntaxError` is
re-raised as an EOL-while-scanning error naming the file, `ValueError` as
a Malformed-value error naming the file; other classes propagate
unchanged. -/
def wrapScanErr (filename : String) : PyErr → PyErr
  | .syntaxError _ => .syntaxError ("EOL while scanning " ++ filename)
  | .valueError _ => .valueError ("Malformed value while scanning " ++ filename)
  | e => e

/-- Flat-mode processing of one output file (lines 128-159 of
`experiment.py`): an empty file contributes nothing; otherwise parse the
file id from the filename, the header from line 1, and fold the body
lines into the header-seeded record. -/
def flatParseFile (filename : String) (lines : List String) : Except PyErr (Option Datum) :=
  if lines.isEmpty then .ok Option.none
  else
    let body : Except PyErr Datum :=
      match pyInt (fileStem filename) with
      | .error e => .error e
      | .ok fileId =>
        match pyLiteralEval (lines.headD "") with
        | .error e => .error e
        | .ok hv =>
          match asDict hv with
          | .error e => .error e
          | .ok h => flatBody (flatHeaderOf fileId h) (lines.drop 1)
    match body with
    | .ok d => .ok (some d)
    | .error e => .error (wrapScanErr filename e)

/-- Contents of an experiment directory: the directory path together with
the listed files, each a bare filename paired with its `readlines()`
result (each line keeps its trailing newline, except possibly the last
line of the file). -/
structure OutDir where
  dir : String
  files : List (String × List String)

/-- Output files of the experiment (`output_filenames`): files whose name
ends in ".out", with full paths, in directory-listing order. -/
def output_filenames (d : OutDir) : List (String × List String) :=
  (d.files.filter (fun p => strEndsWith p.1 ".out")).map (fun p => (d.dir ++ "/" ++ p.1, p.2))

/-- The SQLite results store: the optional `data` and `headers` tables,
each a list of records in insertion order.  Declared column schemas and
primary keys are not tracked beyond table existence and contents. -/
structure DB where
  data : Option (List Datum)
  headers : Option (List Datum)

/-- The flat-mode gathering loop (lines 127-159 of `experiment.py`): one
record per nonempty output file, in directory-listing order, aborting at
the first per-file failure. -/
def flatGather : List (String × List String) → Except PyErr (List Datum)
  | [] => .ok []
  | p :: rest =>
    match flatParseFile p.1 p.2 with
    | .error e => .error e
    | .ok Option.none => flatGather rest
    | .ok (some datum) =>
      match flatGather rest with
      | .error e => .error e
      | .ok rows => .ok (datum :: rows)

/-- Flat-mode ingestion `ExperimentInstance.create_database` (lines 111-169
of `experiment.py`): raise `FileNotFoundError` naming the directory when
no output file exists, otherwise gather one record per nonempty file and
write them as table `data` with replace semantics.  A per-file failure
propagates before any table is written. -/
def create_database (d : OutDir) (db : DB) : DB × Option PyErr :=
  let outs := output_filenames d
  if outs.isEmpty then
    (db, some (.fileNotFoundError ("No output files found in " ++ d.dir)))
  else
    match flatGather outs with
    | .error e => (db, some e)
    | .ok rows => ({ db with data := some rows }, Option.none)

/-- Keyword expansion `dict(file=file_id, **extra)`: the keyword arguments
come first and each entry of `extra` is appended, except that a duplicate
of an existing keyword raises `TypeError` (which the ingestion loop does
not catch). -/
def dictKwMerge (base : Datum) : Datum → Except PyErr Datum
  | [] => .ok base
  | p :: rest =>
    if base.any (fun q => q.1 == p.1) then
      .error (.typeError ("got multiple values for keyword argument " ++ p.1))
    else dictKwMerge (base ++ [p]) rest

/-- Tabular header record (line 57 of `sql_cached_experiment.py`):
`dict(file=file_id, **literal_eval(lines[0]))`.  No key is removed. -/
def tabHeaderOf (fileId : Int) (h : Datum) : Except PyErr Datum :=
  dictKwMerge [("file", .int fileId)] h

/-- Use a parsed body-line value as a sequence for `zip`.  A non-sequence
value makes `zip` raise `TypeError`, which the loop does not catch. -/
def asSeq : PyVal → Except PyErr (List PyVal)
  | .tuple vs => .ok vs
  | .list vs => .ok vs
  | _ => .error (.typeError "zip argument is not iterable")

/-- One tabular data row (line 60 of `sql_cached_experiment.py`): the dict
comprehension over `chain(zip(data_columns, tup), [((file, empty),
file_id)])` keyed by the first component of each column pair.  `zip`
truncates to the shorter sequence, and the `file` entry, coming last,
wins over any declared column of the same name. -/
def buildRow (data_columns : List (String × String)) (tup : List PyVal) (fileId : Int) : Datum :=
  (((data_columns.map (fun col => col.1)).zip tup) ++ [("file", PyVal.int fileId)]).foldl
    (fun acc kv => dictSet acc kv.1 kv.2) []

/-- One tabular body line: `literal_eval` then `zip` against the declared
columns via `buildRow`. -/
def tabRowOfLine (data_columns : List (String × String)) (fileId : Int) (line : String) :
    Except PyErr Datum :=
  match pyLiteralEval line with
  | .error e => .error e
  | .ok v =>
    match asSeq v with
    | .error e => .error e
    | .ok tup => .ok (buildRow data_columns tup fileId)

/-- The tabular body comprehension over `map(literal_eval, lines[1:])`:
one row per body line, left to right, aborting at the first failure. -/
def tabRows (data_columns : List (String × String)) (fileId : Int) :
    List String → Except PyErr (List Datum)
  | [] => .ok []
  | line :: rest =>
    match tabRowOfLine data_columns fileId line with
    | .error e => .error e
    | .ok r =>
      match tabRows data_columns fileId rest with
      | .error e => .error e
      | .ok rs => .ok (r :: rs)

/-- Tabular-mode processing of one output file (lines 48-65 of
`sql_cached_experiment.py`): an empty file contributes nothing; otherwise
parse the file id, build the header record, and map every remaining line
through `literal_eval` and `buildRow`. -/
def tabParseFile (data_columns : List (String × String)) (filename : String) (lines : List String) :
    Except PyErr (Option (Datum × List Datum)) :=
  if lines.isEmpty then .ok Option.none
  else
    let body : Except PyErr (Datum × List Datum) :=
      match pyInt (fileStem filename) with
      | .error e => .error e
      | .ok fileId =>
        match pyLiteralEval (lines.headD "") with
        | .error e => .error e
        | .ok hv =>
          match asDict hv with
          | .error e => .error e
          | .ok h =>
            match tabHeaderOf fileId h with
            | .error e => .error e
            | .ok header =>
              match tabRows data_columns fileId (lines.drop 1) with
              | .error e => .error e
              | .ok rows => .ok (header, rows)
    match body with
    | .ok r => .ok (some r)
    | .error e => .error (wrapScanErr filename e)

/-- The CREATE TABLE statement issued by `_save_data` before reading any
file: the declared columns, an integer `file` column, and the
caller-supplied primary-key expression (lines 40-42 of
`sql_cached_experiment.py`). -/
def createDataTableQuery (data_columns : List (String × String)) (primary_key : String) : String :=
  "CREATE TABLE data (" ++
    String.intercalate ", "
      ((data_columns ++ [("file", "integer")]).map (fun col => col.1 ++ " " ++ col.2)) ++
    ", PRIMARY KEY(" ++ primary_key ++ "));"

/-- The tabular gathering loop (lines 47-65 of `sql_cached_experiment.py`):
accumulate one header record per nonempty output file and all its data
rows, in directory-listing order, aborting at the first per-file
failure. -/
def tabGather (data_columns : List (String × String)) :
    List (String × List String) → Except PyErr (List Datum × List Datum)
  | [] => .ok ([], [])
  | p :: rest =>
    match tabParseFile data_columns p.1 p.2 with
    | .error e => .error e
    | .ok Option.none => tabGather data_columns rest
    | .ok (some hr) =>
      match tabGather data_columns rest with
      | .error e => .error e
      | .ok acc => .ok (hr.1 :: acc.1, hr.2 ++ acc.2)

/-- Tabular-mode ingestion `SQLCachedExperiment._save_data` (lines 24-69 of
`sql_cached_experiment.py`): drop and re-create the `data` table (empty)
in a first committed connection scope, accumulate header and data records
from every output file, then write `headers` with replace semantics and
append the accumulated rows into the pre-created `data` table.  There is
no empty-directory check; a per-file failure propagates after the empty
`data` table was already created and committed.  Writing the final (for
an empty directory, empty) frames is modelled as succeeding. -/
def save_data (d : OutDir) (data_columns : List (String × String)) (primary_key : String)
    (db : DB) : DB × Option PyErr :=
  let _query := createDataTableQuery data_columns primary_key
  let db1 : DB := { db with data := some [] }
  match tabGather data_columns (output_filenames d) with
  | .error e => (db1, some e)
  | .ok gathered => ({ db1 with headers := some gathered.1, data := some gathered.2 }, Option.none)

/-- Observable actions on the scoped SQLite connection. -/
inductive ConnEvent where
  | connect : String → ConnEvent
  | setRowFactory : ConnEvent
  | commit : ConnEvent
  | close : ConnEvent
deriving DecidableEq

/-- Trace of `SQLiteConnection.__enter__`: `sqlite3.connect(file)` followed
by setting the row factory. -/
def sqliteEnterEvents (file : String) : List ConnEvent :=
  [.connect file, .setRowFactory]

/-- Trace of `SQLiteConnection.__exit__`: `self.conn.commit()` then
`self.conn.close()`, the same body for every exit kind. -/
def sqliteExitEvents : List ConnEvent := [.commit, .close]

/-- Return value of `SQLiteConnection.__exit__`: the method body has no
return statement, so it returns `None`, and the with-statement treats a
falsy return as not suppressing an in-scope exception. -/
def sqliteExitSuppresses : Bool := false

/-- Python with-statement semantics specialised to `SQLiteConnection`: run
`__enter__`, run the body (given by its outcome and its own event trace),
then run `__exit__` on every exit path; an in-scope exception is
re-raised afterwards exactly when `__exit__` returned a falsy value. -/
def withSQLiteConnection (file : String) (body : Except PyErr Unit × List ConnEvent) :
    Except PyErr Unit × List ConnEvent :=
  let events := sqliteEnterEvents file ++ body.2 ++ sqliteExitEvents
  match body.1 with
  | .ok _ => (.ok (), events)
  | .error e => (if sqliteExitSuppresses then .ok () else .error e, events)


/-- Whether a flat body line would assign under key `k`: the line is not
skipped by the two skip conditions and its trimmed key text equals `k`. -/
def lineTouches (k : String) (line : String) : Bool :=
  !(line.data.length == 1) && line.data.contains ':' && (pyStrip (flatKeyTextRaw line) == k)


/-! Helper lemmas about the dictionary model. -/

theorem dictGet_map_set (k : String) (v : PyVal) :
    ∀ d : Datum, d.any (fun p => p.1 == k) = true →
      dictGet (d.map (fun p => if p.1 == k then (k, v) else p)) k = some v := by
  intro d
  induction d with
  | nil => intro h; simp at h
  | cons p rest ih =>
    intro h
    by_cases hp : (p.1 == k) = true
    · simp [dictGet, List.find?, hp]
    · simp only [List.any_cons, hp, Bool.false_or] at h
      simp only [List.map_cons, if_neg hp]
      simpa [dictGet, List.find?, hp] using ih h

theorem dictGet_append_single (k : String) (v : PyVal) :
    ∀ d : Datum, d.any (fun p => p.1 == k) = false →
      dictGet (d ++ [(k, v)]) k = some v := by
  intro d
  induction d with
  | nil => intro _; simp [dictGet, List.find?]
  | cons p rest ih =>
    intro h
    simp only [List.any_cons, Bool.or_eq_false_iff] at h
    simpa [dictGet, List.find?, h.1] using ih h.2

theorem dictGet_dictSet_self (d : Datum) (k : String) (v : PyVal) :
    dictGet (dictSet d k v) k = some v := by
  unfold dictSet
  by_cases h : d.any (fun p => p.1 == k) = true
  · rw [if_pos h]; exact dictGet_map_set k v d h
  · rw [if_neg h]
    exact dictGet_append_single k v d (Bool.eq_false_iff.mpr h)

theorem dictGet_map_set_ne (k k2 : String) (v : PyVal) (hne : k2 ≠ k) :
    ∀ d : Datum, dictGet (d.map (fun p => if p.1 == k then (k, v) else p)) k2 = dictGet d k2 := by
  intro d
  induction d with
  | nil => simp [dictGet]
  | cons p rest ih =>
    by_cases hp : (p.1 == k) = true
    · have hpk : p.1 = k := by simpa using hp
      have h1 : (k == k2) = false := by
        simp only [beq_eq_false_iff_ne]; exact fun hh => hne hh.symm
      have h2 : (p.1 == k2) = false := by rw [hpk]; exact h1
      simp only [List.map_cons, if_pos hp]
      simpa [dictGet, List.find?, h1, h2] using ih
    · simp only [List.map_cons, if_neg hp]
      by_cases hq : (p.1 == k2) = true
      · simp [dictGet, List.find?, hq]
      · have hq2 : (p.1 == k2) = false := Bool.eq_false_iff.mpr hq
        simpa [dictGet, List.find?, hq2] using ih

theorem dictGet_append_single_ne (k k2 : String) (v : PyVal) (hne : k2 ≠ k) :
    ∀ d : Datum, dictGet (d ++ [(k, v)]) k2 = dictGet d k2 := by
  intro d
  induction d with
  | nil =>
    have h1 : (k == k2) = false := by
      simp only [beq_eq_false_iff_ne]; exact fun hh => hne hh.symm
    simp [dictGet, List.find?, h1]
  | cons p rest ih =>
    by_cases hq : (p.1 == k2) = true
    · simp [dictGet, List.find?, hq]
    · have hq2 : (p.1 == k2) = false := Bool.eq_false_iff.mpr hq
      simpa [dictGet, List.find?, hq2] using ih

theorem dictGet_dictSet_ne (d : Datum) (k k2 : String) (v : PyVal) (hne : k2 ≠ k) :
    dictGet (dictSet d k v) k2 = dictGet d k2 := by
  unfold dictSet
  by_cases h : d.any (fun p => p.1 == k) = true
  · rw [if_pos h]; exact dictGet_map_set_ne k k2 v hne d
  · rw [if_neg h]; exact dictGet_append_single_ne k k2 v hne d

theorem dictGet_dictPop_self (d : Datum) (k : String) :
    dictGet (dictPop d k) k = Option.none := by
  unfold dictPop
  induction d with
  | nil => simp [dictGet]
  | cons p rest ih =>
    by_cases hp : p.1 = k
    · rw [List.filter_cons, if_neg (by simp [hp])]
      exact ih
    · have hp2 : (p.1 == k) = false := by simpa using hp
      rw [List.filter_cons, if_pos (by simp [hp])]
      rw [show dictGet (p :: List.filter (fun q => decide (q.1 ≠ k)) rest) k =
            dictGet (List.filter (fun q => decide (q.1 ≠ k)) rest) k from by
        simp [dictGet, List.find?, hp2]]
      exact ih

theorem dictGet_none_of_any_false (k : String) :
    ∀ d : Datum, d.any (fun p => p.1 == k) = false → dictGet d k = Option.none := by
  intro d
  induction d with
  | nil => intro _; simp [dictGet]
  | cons p rest ih =>
    intro h
    simp only [List.any_cons, Bool.or_eq_false_iff] at h
    simpa [dictGet, List.find?, h.1] using ih h.2

theorem dictKwMerge_get :
    ∀ (extra base r : Datum) (k : String) (v : PyVal),
      dictGet base k = some v → dictKwMerge base extra = .ok r → dictGet r k = some v := by
  intro extra
  induction extra with
  | nil =>
    intro base r k v hbase hmerge
    unfold dictKwMerge at hmerge
    cases hmerge
    exact hbase
  | cons p rest ih =>
    intro base r k v hbase hmerge
    unfold dictKwMerge at hmerge
    by_cases hcol : base.any (fun q => q.1 == p.1) = true
    · rw [if_pos hcol] at hmerge
      exact absurd hmerge (by simp)
    · rw [if_neg hcol] at hmerge
      apply ih (base ++ [p]) r k v _ hmerge
      by_cases hk : k = p.1
      · subst hk
        have hnone : dictGet base p.1 = Option.none :=
          dictGet_none_of_any_false p.1 base (Bool.eq_false_iff.mpr hcol)
        rw [hbase] at hnone
        exact absurd hnone (by simp)
      · have heta : base ++ [p] = base ++ [(p.1, p.2)] := by simp
        rw [heta, dictGet_append_single_ne p.1 k p.2 hk base]
        exact hbase

theorem dictKwMerge_extra :
    ∀ (extra base r : Datum) (k : String) (v : PyVal),
      dictKwMerge base extra = .ok r → dictGet extra k = some v → dictGet r k = some v := by
  intro extra
  induction extra with
  | nil =>
    intro base r k v _ hget
    simp [dictGet] at hget
  | cons p rest ih =>
    intro base r k v hmerge hget
    unfold dictKwMerge at hmerge
    by_cases hcol : base.any (fun q => q.1 == p.1) = true
    · rw [if_pos hcol] at hmerge
      exact absurd hmerge (by simp)
    · rw [if_neg hcol] at hmerge
      by_cases hp : (p.1 == k) = true
      · have hpk : p.1 = k := by simpa using hp
        have hv : some p.2 = some v := by
          rw [← hget]; simp [dictGet, List.find?, hp]
        rw [show v = p.2 from by injection hv with h; exact h.symm]
        apply dictKwMerge_get rest (base ++ [p]) r k p.2 _ hmerge
        have hanyk : base.any (fun q => q.1 == k) = false := by
          rw [← hpk]; exact Bool.eq_false_iff.mpr hcol
        have heta : base ++ [p] = base ++ [(k, p.2)] := by
          rw [← hpk]
        rw [heta]
        exact dictGet_append_single k p.2 base hanyk
      · have hp2 : (p.1 == k) = false := Bool.eq_false_iff.mpr hp
        have hget2 : dictGet rest k = some v := by
          rw [← hget]; simp [dictGet, List.find?, hp2]
        exact ih (base ++ [p]) r k v hmerge hget2

/-! Helper lemmas about the flat body fold and the tabular rows. -/

theorem flatLineStep_notouch (k : String) (line : String) (d d2 : Datum)
    (ht : lineTouches k line = false) (hstep : flatLineStep d line = .ok d2) :
    dictGet d2 k = dictGet d k := by
  unfold flatLineStep at hstep
  by_cases h1 : (line.data.length == 1) = true
  · rw [if_pos h1] at hstep
    injection hstep with h
    rw [h]
  · rw [if_neg h1] at hstep
    by_cases h2 : line.data.contains ':' = true
    · rw [if_neg (by rw [h2]; simp : ¬((!line.data.contains ':') = true))] at hstep
      have hkey : (pyStrip (flatKeyTextRaw line) == k) = false := by
        have h1f : (line.data.length == 1) = false := Bool.eq_false_iff.mpr h1
        unfold lineTouches at ht
        rw [h1f, h2] at ht
        simpa using ht
      have hne : k ≠ pyStrip (flatKeyTextRaw line) := by
        intro hh
        rw [beq_eq_false_iff_ne] at hkey
        exact hkey hh.symm
      cases hparse : pyLiteralEval (pyStrip (flatValueText line)) with
      | ok v =>
        rw [hparse] at hstep
        injection hstep with h
        rw [← h]
        exact dictGet_dictSet_ne d _ k v hne
      | error e =>
        cases e with
        | valueError m =>
          rw [hparse] at hstep
          injection hstep with h
          rw [← h]
          exact dictGet_dictSet_ne d _ k _ hne
        | syntaxError m =>
          rw [hparse] at hstep
          exact absurd hstep (by simp)
        | typeError m =>
          rw [hparse] at hstep
          exact absurd hstep (by simp)
        | fileNotFoundError m =>
          rw [hparse] at hstep
          exact absurd hstep (by simp)
    · rw [if_pos (by rw [Bool.eq_false_iff.mpr h2]; rfl :
          ((!line.data.contains ':') = true))] at hstep
      injection hstep with h
      rw [h]

theorem flatBody_preserves (k : String) :
    ∀ (lines : List String) (d d2 : Datum),
      (∀ l ∈ lines, lineTouches k l = false) → flatBody d lines = .ok d2 →
      dictGet d2 k = dictGet d k := by
  intro lines
  induction lines with
  | nil =>
    intro d d2 _ h
    unfold flatBody at h
    injection h with h2
    rw [h2]
  | cons line rest ih =>
    intro d d2 hall h
    unfold flatBody at h
    cases hstep : flatLineStep d line with
    | error e =>
      rw [hstep] at h
      exact absurd h (by simp)
    | ok dmid =>
      rw [hstep] at h
      rw [ih dmid d2 (fun l hl => hall l (List.mem_cons_of_mem _ hl)) h]
      exact flatLineStep_notouch k line d dmid (hall line (List.mem_cons_self _ _)) hstep

theorem buildRow_file (data_columns : List (String × String)) (tup : List PyVal) (fileId : Int) :
    dictGet (buildRow data_columns tup fileId) "file" = some (.int fileId) := by
  unfold buildRow
  rw [List.foldl_append]
  simp only [List.foldl_cons, List.foldl_nil]
  exact dictGet_dictSet_self _ "file" (.int fileId)

theorem tabRowOfLine_shape (data_columns : List (String × String)) (fileId : Int)
    (line : String) (r0 : Datum)
    (h : tabRowOfLine data_columns fileId line = .ok r0) :
    ∃ tup, r0 = buildRow data_columns tup fileId := by
  unfold tabRowOfLine at h
  cases h1 : pyLiteralEval line with
  | error e =>
    rw [h1] at h
    exact absurd h (by simp)
  | ok v =>
    rw [h1] at h
    dsimp only at h
    cases h2 : asSeq v with
    | error e =>
      rw [h2] at h
      exact absurd h (by simp)
    | ok tup =>
      rw [h2] at h
      injection h with h3
      exact ⟨tup, h3.symm⟩

theorem tabRows_file (data_columns : List (String × String)) (fileId : Int) :
    ∀ (lines : List String) (rows : List Datum),
      tabRows data_columns fileId lines = .ok rows →
      ∀ r ∈ rows, dictGet r "file" = some (.int fileId) := by
  intro lines
  induction lines with
  | nil =>
    intro rows h r hr
    unfold tabRows at h
    injection h with h2
    rw [← h2] at hr
    simp at hr
  | cons line rest ih =>
    intro rows h r hr
    unfold tabRows at h
    cases h0 : tabRowOfLine data_columns fileId line with
    | error e =>
      rw [h0] at h
      exact absurd h (by simp)
    | ok r0 =>
      rw [h0] at h
      cases h1 : tabRows data_columns fileId rest with
      | error e =>
        rw [h1] at h
        exact absurd h (by simp)
      | ok rs =>
        rw [h1] at h
        injection h with h2
        rw [← h2] at hr
        cases List.mem_cons.mp hr with
        | inl hr0 =>
          obtain ⟨tup, htup⟩ := tabRowOfLine_shape data_columns fileId line r0 h0
          rw [hr0, htup]
          exact buildRow_file data_columns tup fileId
        | inr hrs =>
          exact ih rs h1 r hrs

/-! Helper lemmas about the line splitter. -/

theorem splitOnChar_ne_nil (sep : Char) : ∀ l : List Char, splitOnChar sep l ≠ [] := by
  intro l
  cases l with
  | nil => simp [splitOnChar]
  | cons c cs =>
    unfold splitOnChar
    by_cases h : (c == sep) = true
    · rw [if_pos h]; simp
    · rw [if_neg h]; simp

theorem splitOnChar_headD (sep : Char) :
    ∀ l : List Char, (splitOnChar sep l).headD [] = l.takeWhile (fun c => !(c == sep)) := by
  intro l
  induction l with
  | nil => simp [splitOnChar]
  | cons c cs ih =>
    unfold splitOnChar
    by_cases h : (c == sep) = true
    · rw [if_pos h]
      simp [List.takeWhile_cons, h]
    · rw [if_neg h]
      have hf : (c == sep) = false := Bool.eq_false_iff.mpr h
      simp only [List.headD_cons, List.takeWhile_cons, hf, Bool.not_false, if_true]
      exact congrArg (List.cons c) ih

theorem splitOnChar_getD_one (sep : Char) :
    ∀ l : List Char, (splitOnChar sep l).getD 1 [] =
      ((l.dropWhile (fun c => !(c == sep))).drop 1).takeWhile (fun c => !(c == sep)) := by
  intro l
  induction l with
  | nil => simp [splitOnChar]
  | cons c cs ih =>
    unfold splitOnChar
    by_cases h : (c == sep) = true
    · rw [if_pos h]
      rw [List.getD_cons_succ]
      have hhead : (splitOnChar sep cs).getD 0 [] = (splitOnChar sep cs).headD [] := by
        cases hs : splitOnChar sep cs with
        | nil => exact absurd hs (splitOnChar_ne_nil sep cs)
        | cons a as => simp
      rw [hhead, splitOnChar_headD]
      simp [List.dropWhile_cons, h]
    · rw [if_neg h]
      have hf : (c == sep) = false := Bool.eq_false_iff.mpr h
      rw [List.getD_cons_succ]
      have htail : (splitOnChar sep cs).tail.getD 0 [] = (splitOnChar sep cs).getD 1 [] := by
        cases hs : splitOnChar sep cs with
        | nil => exact absurd hs (splitOnChar_ne_nil sep cs)
        | cons a as => simp
      rw [htail, ih]
      simp [List.dropWhile_cons, hf]

theorem pySplit_getD_zero (sep : Char) (s : String) :
    (pySplit sep s).getD 0 "" = String.mk ((splitOnChar sep s.data).getD 0 []) := by
  unfold pySplit
  cases hs : splitOnChar sep s.data with
  | nil => exact absurd hs (splitOnChar_ne_nil sep s.data)
  | cons a as => simp

theorem pySplit_getD_one (sep : Char) (s : String) :
    (pySplit sep s).getD 1 "" = String.mk ((splitOnChar sep s.data).getD 1 []) := by
  unfold pySplit
  cases hs : splitOnChar sep s.data with
  | nil => exact absurd hs (splitOnChar_ne_nil sep s.data)
  | cons a as =>
    cases as with
    | nil => simp
    | cons b bs => simp

/-! Inversion lemmas for the per-file parsers. -/

theorem flatParseFile_ok_inv (filename : String) (lines : List String) (dd : Datum)
    (h : flatParseFile filename lines = .ok (some dd)) :
    ∃ (n : Int) (hv : PyVal) (hdict : Datum),
      pyInt (fileStem filename) = .ok n ∧ pyLiteralEval (lines.headD "") = .ok hv ∧
      asDict hv = .ok hdict ∧ flatBody (flatHeaderOf n hdict) (lines.drop 1) = .ok dd := by
  unfold flatParseFile at h
  by_cases he : lines.isEmpty
  · rw [if_pos he] at h
    exact absurd h (by simp)
  · rw [if_neg he] at h
    cases h1 : pyInt (fileStem filename) with
    | error e =>
      rw [h1] at h
      exact absurd h (by simp)
    | ok n =>
      rw [h1] at h
      dsimp only at h
      cases h2 : pyLiteralEval (lines.headD "") with
      | error e =>
        rw [h2] at h
        exact absurd h (by simp)
      | ok hv =>
        rw [h2] at h
        dsimp only at h
        cases h3 : asDict hv with
        | error e =>
          rw [h3] at h
          exact absurd h (by simp)
        | ok hdict =>
          rw [h3] at h
          dsimp only at h
          cases h4 : flatBody (flatHeaderOf n hdict) (lines.drop 1) with
          | error e =>
            rw [h4] at h
            exact absurd h (by simp)
          | ok d =>
            rw [h4] at h
            refine ⟨n, hv, hdict, rfl, rfl, h3, ?_⟩
            have h6 : d = dd := by
              injection h with h5
              injection h5 with h66
            rw [← h6]
            exact h4

theorem tabParseFile_ok_inv (cols : List (String × String)) (filename : String)
    (lines : List String) (hdr : Datum) (rows : List Datum)
    (h : tabParseFile cols filename lines = .ok (some (hdr, rows))) :
    ∃ (n : Int) (hv : PyVal) (hdict : Datum),
      pyInt (fileStem filename) = .ok n ∧ pyLiteralEval (lines.headD "") = .ok hv ∧
      asDict hv = .ok hdict ∧ tabHeaderOf n hdict = .ok hdr ∧
      tabRows cols n (lines.drop 1) = .ok rows := by
  unfold tabParseFile at h
  by_cases he : lines.isEmpty
  · rw [if_pos he] at h
    exact absurd h (by simp)
  · rw [if_neg he] at h
    cases h1 : pyInt (fileStem filename) with
    | error e =>
      rw [h1] at h
      exact absurd h (by simp)
    | ok n =>
      rw [h1] at h
      dsimp only at h
      cases h2 : pyLiteralEval (lines.headD "") with
      | error e =>
        rw [h2] at h
        exact absurd h (by simp)
      | ok hv =>
        rw [h2] at h
        dsimp only at h
        cases h3 : asDict hv with
        | error e =>
          rw [h3] at h
          exact absurd h (by simp)
        | ok hdict =>
          rw [h3] at h
          dsimp only at h
          cases h4 : tabHeaderOf n hdict with
          | error e =>
            rw [h4] at h
            exact absurd h (by simp)
          | ok header =>
            rw [h4] at h
            dsimp only at h
            cases h5 : tabRows cols n (lines.drop 1) with
            | error e =>
              rw [h5] at h
              exact absurd h (by simp)
            | ok rows2 =>
              rw [h5] at h
              have hpair : (header, rows2) = (hdr, rows) := by
                injection h with h6
                injection h6 with h7
              have hh : header = hdr := congrArg Prod.fst hpair
              have hr : rows2 = rows := congrArg Prod.snd hpair
              exact ⟨n, hv, hdict, rfl, rfl, h3, hh ▸ h4, hr ▸ h5⟩

/-! Claim C1. -/

/-- Claim C1 (code bug): a flat-mode body line whose value text is the
literal "inf" is NOT normalized to the integer -1.  The source guards the
rewrite with the Python identity test (always false for the freshly split,
untrimmed segment), so the structured parse of "inf" raises ValueError and
the trimmed raw STRING "inf" is stored.  Evaluated here on the scenario
line "loss: inf": the resulting Data Record holds the string "inf". -/
theorem c1_inf_nan_not_normalized :
    pyIsLiteralStr (flatValueTextRaw "loss: inf\n") "inf" = false ∧
    pyStrip (flatValueText "loss: inf\n") = "inf" ∧
    pyLiteralEval "inf" = .error (.valueError "malformed node or string") ∧
    flatParseFile "exp/0.out" ["\x7b\x7d\n", "loss: inf\n"] =
      .ok (some [("file", PyVal.int 0), ("loss", PyVal.str "inf")]) ∧
    PyVal.str "inf" ≠ PyVal.int (-1) := by
  refine ⟨rfl, by decide, rfl, rfl, by simp⟩

/-! Claim C2. -/

/-- Claim C2 counterexample: a flat-mode body line with trimmed key "file"
overwrites the file field after it was set from the filename.  For file
"3.out" with body line "file: 99" the final Data Record carries file = 99,
not the filename-derived 3. -/
theorem c2_file_field_overwritten_cex :
    flatParseFile "exp/3.out" ["\x7b\x7d\n", "file: 99\n"] =
      .ok (some [("file", PyVal.int 99)]) ∧
    pyInt (fileStem "exp/3.out") = .ok 3 ∧
    some (PyVal.int 99) ≠ some (PyVal.int 3) := by
  refine ⟨rfl, rfl, by simp⟩

/-- Claim C2 amended: every Header Record and every tabular Data Record
carries a `file` field equal to the integer parsed from the filename; a
flat-mode Data Record carries it provided no body line has trimmed key
"file" (a body line keyed "file" overwrites the field, last write wins). -/
theorem c2_file_field_amended (filename : String) (lines : List String) (n : Int)
    (cols : List (String × String))
    (hn : pyInt (fileStem filename) = .ok n) :
    (∀ dd : Datum, (∀ l ∈ lines.drop 1, lineTouches "file" l = false) →
      flatParseFile filename lines = .ok (some dd) → dictGet dd "file" = some (.int n)) ∧
    (∀ (h : Datum) (rows : List Datum),
      tabParseFile cols filename lines = .ok (some (h, rows)) →
      dictGet h "file" = some (.int n) ∧ ∀ r ∈ rows, dictGet r "file" = some (.int n)) := by
  constructor
  · intro dd hlines hok
    obtain ⟨n2, hv, hdict, hn2, _, _, hbody⟩ := flatParseFile_ok_inv filename lines dd hok
    rw [hn] at hn2
    injection hn2 with hnn
    rw [flatBody_preserves "file" (lines.drop 1) _ dd hlines hbody]
    unfold flatHeaderOf
    rw [← hnn]
    exact dictGet_dictSet_self _ "file" (.int n)
  · intro h rows hok
    obtain ⟨n2, hv, hdict, hn2, _, _, hmerge, hrows⟩ :=
      tabParseFile_ok_inv cols filename lines h rows hok
    rw [hn] at hn2
    injection hn2 with hnn
    rw [← hnn] at hmerge hrows
    constructor
    · exact dictKwMerge_get hdict [("file", .int n)] h "file" (.int n)
        (by simp [dictGet, List.find?]) hmerge
    · exact tabRows_file cols n (lines.drop 1) rows hrows

/-- Claim C2 witness: concrete instantiation of the amended theorem for
file "exp/7.out" with an empty header and no body lines. -/
theorem c2_file_field_amended_witness :
    pyInt (fileStem "exp/7.out") = .ok 7 ∧
    dictGet [("file", PyVal.int 7)] "file" = some (PyVal.int 7) :=
  ⟨rfl, (c2_file_field_amended "exp/7.out" ["\x7b\x7d\n"] 7 [] rfl).1
    [("file", PyVal.int 7)] (by simp) rfl⟩

/-! Claim C3. -/

/-- Claim C3 counterexample: the tabular entry point performs no
empty-directory check.  On a directory with no output files it raises no
file-not-found error and it does create the (empty) `data` table, so a
table is written without any not-found condition naming the directory. -/
theorem c3_tabular_no_notfound_cex :
    (save_data { dir := "mydir", files := [] } [("x", "integer")] "x, file"
        { data := Option.none, headers := Option.none }).2 ≠
      some (PyErr.fileNotFoundError ("No output files found in " ++ "mydir")) ∧
    (save_data { dir := "mydir", files := [] } [("x", "integer")] "x, file"
        { data := Option.none, headers := Option.none }).1.data = some [] := by
  refine ⟨fun h => ?_, rfl⟩
  have h2 : (Option.none : Option PyErr) =
      some (PyErr.fileNotFoundError ("No output files found in " ++ "mydir")) := h
  exact Option.noConfusion h2

/-- Claim C3 amended: only the flat-mode entry point checks for output
files: with none present it fails with a file-not-found error naming the
directory before any table is written (the store is unchanged), while the
tabular entry point raises no such error and creates the `data` table
empty together with an empty `headers` table. -/
theorem c3_empty_dir_amended (d : OutDir) (db : DB) (cols : List (String × String))
    (pk : String) (h : output_filenames d = []) :
    create_database d db =
      (db, some (.fileNotFoundError ("No output files found in " ++ d.dir))) ∧
    save_data d cols pk db =
      ({ db with data := some [], headers := some [] }, Option.none) := by
  constructor
  · unfold create_database
    rw [h]
    rfl
  · unfold save_data
    rw [h]
    rfl

/-- Claim C3 witness: the amended theorem applied to a directory whose only
file does not end in ".out". -/
theorem c3_empty_dir_amended_witness :
    output_filenames { dir := "mydir", files := [("notes.txt", ["x\n"])] } = [] ∧
    (create_database { dir := "mydir", files := [("notes.txt", ["x\n"])] }
        { data := Option.none, headers := Option.none } =
      ({ data := Option.none, headers := Option.none },
        some (.fileNotFoundError ("No output files found in " ++ "mydir"))) ∧
     save_data { dir := "mydir", files := [("notes.txt", ["x\n"])] } [("x", "integer")] "x, file"
        { data := Option.none, headers := Option.none } =
      ({ data := some [], headers := some [] }, Option.none)) :=
  ⟨rfl, c3_empty_dir_amended _ _ _ _ rfl⟩

/-! Claim C4. -/

/-- Claim C4 counterexample: a flat-mode scalar parse failure CAN abort the
batch.  The value text "foo bar" tokenizes to a syntax failure (not a
value failure), which the per-line fallback does not catch: the whole
ingestion aborts with the EOL-while-scanning error naming the file. -/
theorem c4_syntax_failure_aborts_cex :
    ("note: foo bar\n".data.contains ':') = true ∧
    pyLiteralEval (pyStrip (flatValueText "note: foo bar\n")) =
      .error (.syntaxError "invalid syntax") ∧
    flatParseFile "exp/0.out" ["\x7b\x7d\n", "note: foo bar\n"] =
      .error (.syntaxError ("EOL while scanning " ++ "exp/0.out")) ∧
    create_database { dir := "exp", files := [("0.out", ["\x7b\x7d\n", "note: foo bar\n"])] }
        { data := Option.none, headers := Option.none } =
      ({ data := Option.none, headers := Option.none },
        some (.syntaxError ("EOL while scanning " ++ "exp/0.out"))) := by
  refine ⟨rfl, rfl, rfl, rfl⟩

/-- Claim C4 amended: for a non-skipped flat body line, only a ValueError
from the structured parse of the value text falls back to storing the
trimmed raw string under the trimmed key; a SyntaxError from the parse
propagates and aborts the batch. -/
theorem c4_value_fallback_amended (datum1 datum2 : Datum) (line1 line2 : String)
    (m1 m2 : String)
    (hlen1 : (line1.data.length == 1) = false) (hc1 : line1.data.contains ':' = true)
    (hv1 : pyLiteralEval (pyStrip (flatValueText line1)) = .error (.valueError m1))
    (hlen2 : (line2.data.length == 1) = false) (hc2 : line2.data.contains ':' = true)
    (hv2 : pyLiteralEval (pyStrip (flatValueText line2)) = .error (.syntaxError m2)) :
    (∃ d2, flatLineStep datum1 line1 = .ok d2 ∧
      dictGet d2 (pyStrip (flatKeyTextRaw line1)) =
        some (.str (pyStrip (flatValueText line1)))) ∧
    flatLineStep datum2 line2 = .error (.syntaxError m2) := by
  constructor
  · refine ⟨dictSet datum1 (pyStrip (flatKeyTextRaw line1))
      (.str (pyStrip (flatValueText line1))), ?_, ?_⟩
    · unfold flatLineStep
      rw [if_neg (by rw [hlen1]; simp), if_neg (by rw [hc1]; simp), hv1]
    · exact dictGet_dictSet_self _ _ _
  · unfold flatLineStep
    rw [if_neg (by rw [hlen2]; simp), if_neg (by rw [hc2]; simp), hv2]

/-- Claim C4 witness: the amended theorem applied to the lines "note: foo"
(single identifier: ValueError, stored as the string "foo") and
"note: foo bar" (two tokens: SyntaxError, aborts). -/
theorem c4_value_fallback_amended_witness :
    pyLiteralEval (pyStrip (flatValueText "note: foo\n")) =
      .error (.valueError "malformed node or string") ∧
    pyLiteralEval (pyStrip (flatValueText "note: foo bar\n")) =
      .error (.syntaxError "invalid syntax") ∧
    ((∃ d2, flatLineStep [] "note: foo\n" = .ok d2 ∧
        dictGet d2 (pyStrip (flatKeyTextRaw "note: foo\n")) =
          some (.str (pyStrip (flatValueText "note: foo\n")))) ∧
      flatLineStep [] "note: foo bar\n" = .error (.syntaxError "invalid syntax")) :=
  ⟨rfl, rfl, c4_value_fallback_amended [] [] "note: foo\n" "note: foo bar\n"
    "malformed node or string" "invalid syntax" rfl rfl rfl rfl rfl rfl⟩

/-! Claim C5. -/

/-- Claim C5 counterexample: the flat body line "t: 1:30" is split on EVERY
colon and only index 1 is read, so the stored value text is " 1" (the
segment between the first and second colon), not the entire remainder
" 1:30" of the line after the first colon; the record stores t = 1 and
the text after the second colon is discarded. -/
theorem c5_split_all_colons_cex :
    flatValueTextRaw "t: 1:30\n" = " 1" ∧
    String.mk (("t: 1:30\n".data.dropWhile (fun c => !(c == ':'))).drop 1) = " 1:30\n" ∧
    flatValueTextRaw "t: 1:30\n" ≠
      String.mk (("t: 1:30\n".data.dropWhile (fun c => !(c == ':'))).drop 1) ∧
    flatLineStep [] "t: 1:30\n" = .ok [("t", PyVal.int 1)] := by
  refine ⟨rfl, by decide, by decide, rfl⟩

/-- Claim C5 amended: a body line containing a colon is split on every
colon; the key text is the prefix before the first colon and the stored
value text is the segment strictly between the first and the second colon
(text after a second colon is discarded). -/
theorem c5_value_segment_amended (line : String) :
    flatKeyTextRaw line = String.mk (line.data.takeWhile (fun c => !(c == ':'))) ∧
    flatValueTextRaw line =
      String.mk (((line.data.dropWhile (fun c => !(c == ':'))).drop 1).takeWhile
        (fun c => !(c == ':'))) := by
  constructor
  · unfold flatKeyTextRaw
    rw [pySplit_getD_zero]
    have h0 : (splitOnChar ':' line.data).getD 0 [] = (splitOnChar ':' line.data).headD [] := by
      cases hs : splitOnChar ':' line.data with
      | nil => exact absurd hs (splitOnChar_ne_nil ':' line.data)
      | cons a as => simp
    rw [h0, splitOnChar_headD]
  · unfold flatValueTextRaw
    rw [pySplit_getD_one, splitOnChar_getD_one]

/-! Claim C6. -/

/-- Claim C6 counterexample: the tabular header construction does not
remove the empty-string key.  A file whose header literal contains the
empty-string key yields a Header Record in table `headers` that still
contains that key. -/
theorem c6_tabular_empty_key_kept_cex :
    (save_data { dir := "exp", files := [("0.out", ["\x7b\"\": 7\x7d\n"])] } [] "file"
        { data := Option.none, headers := Option.none }).1.headers =
      some [[("file", PyVal.int 0), ("", PyVal.int 7)]] ∧
    dictGet [("file", PyVal.int 0), ("", PyVal.int 7)] "" = some (PyVal.int 7) := by
  refine ⟨rfl, rfl⟩

/-- Claim C6 amended: only the flat-mode header construction removes the
empty-string key (before merging in the file id), so no flat Header
Record contains it; the tabular header construction performs no removal,
and an empty-string entry of the header literal survives into the
tabular Header Record. -/
theorem c6_empty_key_amended (fileId : Int) (h hdr r : Datum) (v : PyVal)
    (hget : dictGet hdr "" = some v) (hmerge : tabHeaderOf fileId hdr = .ok r) :
    dictGet (flatHeaderOf fileId h) "" = Option.none ∧ dictGet r "" = some v := by
  constructor
  · unfold flatHeaderOf
    rw [dictGet_dictSet_ne _ "file" "" _ (by decide)]
    exact dictGet_dictPop_self h ""
  · exact dictKwMerge_extra hdr [("file", .int fileId)] r "" v hmerge hget

/-- Claim C6 witness: the amended theorem applied to the header literal
with an empty-string entry (tabular side) and to a flat header containing
an empty-string entry (flat side). -/
theorem c6_empty_key_amended_witness :
    dictGet [("", PyVal.int 7)] "" = some (PyVal.int 7) ∧
    tabHeaderOf 0 [("", PyVal.int 7)] = .ok [("file", PyVal.int 0), ("", PyVal.int 7)] ∧
    (dictGet (flatHeaderOf 0 [("", PyVal.int 3), ("a", PyVal.int 1)]) "" = Option.none ∧
     dictGet [("file", PyVal.int 0), ("", PyVal.int 7)] "" = some (PyVal.int 7)) :=
  ⟨rfl, rfl, c6_empty_key_amended 0 [("", PyVal.int 3), ("a", PyVal.int 1)]
    [("", PyVal.int 7)] [("file", PyVal.int 0), ("", PyVal.int 7)] (PyVal.int 7) rfl rfl⟩

/-! Claim C7. -/

/-- Claim C7 counterexample: header fields are NOT merged in at the end;
the header is the initial record and body lines assign into it, so for
header key k = 1 and body line "k: 2" the final Data Record holds k = 2
(the body value), not the header parameter value 1. -/
theorem c7_body_overwrites_header_cex :
    pyLiteralEval "\x7b\"k\": 1\x7d\n" = .ok (.dict [("k", PyVal.int 1)]) ∧
    flatParseFile "exp/0.out" ["\x7b\"k\": 1\x7d\n", "k: 2\n"] =
      .ok (some [("k", PyVal.int 2), ("file", PyVal.int 0)]) ∧
    some (PyVal.int 2) ≠ some (PyVal.int 1) := by
  refine ⟨rfl, rfl, by simp⟩

/-- Claim C7 amended: the header-seeded record is accumulated first and
body lines assign into it afterwards, so when the trimmed key of a body line
coincides with an existing (e.g. header) key and no later line touches
that key, the parsed value of the BODY line is the one in the final Data
Record. -/
theorem c7_body_wins_amended (datum final : Datum) (line : String) (rest : List String)
    (k : String) (v : PyVal)
    (hlen : (line.data.length == 1) = false) (hc : line.data.contains ':' = true)
    (hkey : pyStrip (flatKeyTextRaw line) = k)
    (hval : pyLiteralEval (pyStrip (flatValueText line)) = .ok v)
    (hrest : ∀ l ∈ rest, lineTouches k l = false)
    (hfold : flatBody datum (line :: rest) = .ok final) :
    dictGet final k = some v := by
  unfold flatBody at hfold
  have hstep : flatLineStep datum line = .ok (dictSet datum k v) := by
    unfold flatLineStep
    rw [if_neg (by rw [hlen]; simp), if_neg (by rw [hc]; simp), hval, hkey]
  rw [hstep] at hfold
  dsimp only at hfold
  rw [flatBody_preserves k rest _ final hrest hfold]
  exact dictGet_dictSet_self datum k v

/-- Claim C7 witness: the amended theorem applied to the header-seeded
record with k = 1 and the body line "k: 2"; the final record holds 2. -/
theorem c7_body_wins_amended_witness :
    (("k: 2\n".data.length == 1) = false) ∧ ("k: 2\n".data.contains ':' = true) ∧
    pyStrip (flatKeyTextRaw "k: 2\n") = "k" ∧
    pyLiteralEval (pyStrip (flatValueText "k: 2\n")) = .ok (PyVal.int 2) ∧
    flatBody [("k", PyVal.int 1), ("file", PyVal.int 0)] ["k: 2\n"] =
      .ok [("k", PyVal.int 2), ("file", PyVal.int 0)] ∧
    dictGet [("k", PyVal.int 2), ("file", PyVal.int 0)] "k" = some (PyVal.int 2) :=
  ⟨rfl, rfl, by decide, rfl, rfl,
    c7_body_wins_amended [("k", PyVal.int 1), ("file", PyVal.int 0)]
      [("k", PyVal.int 2), ("file", PyVal.int 0)] "k: 2\n" [] "k" (PyVal.int 2)
      rfl rfl (by decide) rfl (by simp) rfl⟩

/-! Claim C8. -/

/-- Claim C8: ingesting the same directory twice in succession yields the
same store state as ingesting it once, in both modes.  Each run fully
replaces the destination table(s): the flat run replaces `data`, the
tabular run drops and re-creates `data` and replaces `headers`, so the
result never depends on the prior table contents. -/
theorem c8_reingest_idempotent (d : OutDir) (db : DB) (cols : List (String × String))
    (pk : String) :
    create_database d (create_database d db).1 = create_database d db ∧
    save_data d cols pk (save_data d cols pk db).1 = save_data d cols pk db := by
  constructor
  · by_cases he : (output_filenames d).isEmpty
    · simp [create_database, he]
    · cases hg : flatGather (output_filenames d) with
      | error e => simp [create_database, he, hg]
      | ok rows => simp [create_database, he, hg]
  · cases hg : tabGather cols (output_filenames d) with
    | error e => simp [save_data, hg]
    | ok g => simp [save_data, hg]

/-! Claim C9. -/

/-- Claim C9: the scoped store connection commits and then closes on every
exit path of the with-scope: for any body outcome (normal or exceptional)
the trace ends with commit followed by close, and the outcome of the body is
preserved (an in-scope exception propagates, since the exit handler
returns a falsy value). -/
theorem c9_commit_close_on_exit (file : String) (body : Except PyErr Unit × List ConnEvent) :
    (withSQLiteConnection file body).1 = body.1 ∧
    (withSQLiteConnection file body).2 =
      sqliteEnterEvents file ++ body.2 ++ [ConnEvent.commit, ConnEvent.close] := by
  obtain ⟨res, ev⟩ := body
  cases res with
  | ok a => cases a; exact ⟨rfl, rfl⟩
  | error e => exact ⟨rfl, rfl⟩

/-! Claim C10. -/

/-- Claim C10: a non-empty output file whose filename stem is not a valid
decimal integer is not skipped; the integer parse of the stem happens
inside the per-file guarded region, so both the flat and the tabular
per-file parse abort with the value-malformed failure naming that file,
and the flat batch entry point propagates it. -/
theorem c10_bad_stem_aborts (filename diry name : String) (l l2 : String)
    (ls ls2 : List String) (cols : List (String × String)) (m m2 : String) (db : DB)
    (h1 : pyInt (fileStem filename) = .error (.valueError m))
    (h2 : pyInt (fileStem (diry ++ "/" ++ name)) = .error (.valueError m2))
    (h3 : strEndsWith name ".out" = true) :
    flatParseFile filename (l :: ls) =
      .error (.valueError ("Malformed value while scanning " ++ filename)) ∧
    tabParseFile cols filename (l :: ls) =
      .error (.valueError ("Malformed value while scanning " ++ filename)) ∧
    create_database { dir := diry, files := [(name, l2 :: ls2)] } db =
      (db, some (.valueError ("Malformed value while scanning " ++ (diry ++ "/" ++ name)))) := by
  have hflat : ∀ (fn : String) (mm : String) (l0 : String) (ls0 : List String),
      pyInt (fileStem fn) = .error (.valueError mm) →
      flatParseFile fn (l0 :: ls0) =
        .error (.valueError ("Malformed value while scanning " ++ fn)) := by
    intro fn mm l0 ls0 hh
    unfold flatParseFile
    rw [if_neg (by simp)]
    rw [hh]
    rfl
  refine ⟨hflat filename m l ls h1, ?_, ?_⟩
  · unfold tabParseFile
    rw [if_neg (by simp)]
    rw [h1]
    rfl
  · have houts : output_filenames { dir := diry, files := [(name, l2 :: ls2)] } =
        [(diry ++ "/" ++ name, l2 :: ls2)] := by
      unfold output_filenames
      simp [List.filter_cons, h3]
    unfold create_database
    rw [houts]
    rw [if_neg (by simp)]
    unfold flatGather
    rw [hflat (diry ++ "/" ++ name) m2 l2 ls2 h2]

/-- Claim C10 witness: both entry points at the concrete file
"exp/abc.out" whose stem "abc" is not a decimal integer. -/
theorem c10_bad_stem_aborts_witness :
    pyInt (fileStem "exp/abc.out") =
      .error (.valueError "invalid literal for int() with base 10: abc") ∧
    pyInt (fileStem ("exp" ++ "/" ++ "abc.out")) =
      .error (.valueError "invalid literal for int() with base 10: abc") ∧
    strEndsWith "abc.out" ".out" = true ∧
    (flatParseFile "exp/abc.out" ["\x7b\x7d\n"] =
        .error (.valueError ("Malformed value while scanning " ++ "exp/abc.out")) ∧
     tabParseFile [] "exp/abc.out" ["\x7b\x7d\n"] =
        .error (.valueError ("Malformed value while scanning " ++ "exp/abc.out")) ∧
     create_database { dir := "exp", files := [("abc.out", ["\x7b\x7d\n"])] }
        { data := Option.none, headers := Option.none } =
      ({ data := Option.none, headers := Option.none },
        some (.valueError ("Malformed value while scanning " ++ ("exp" ++ "/" ++ "abc.out"))))) :=
  ⟨rfl, rfl, rfl, c10_bad_stem_aborts "exp/abc.out" "exp" "abc.out" "\x7b\x7d\n" "\x7b\x7d\n"
    [] [] [] "invalid literal for int() with base 10: abc"
    "invalid literal for int() with base 10: abc"
    { data := Option.none, headers := Option.none } rfl rfl rfl⟩
